import Mathlib

/-!
Verification of the FRACTALES repository's viewport / coordinate-transform and
escape-time evaluation model, shallowly embedded from the JavaScript source
(`src/utils/math-utils.js`, `src/utils/transform-utils.js`,
`src/fractals/*.js`).  Real-number quantities that the source manipulates by
exact rational arithmetic (coordinates, zoom factors, iteration loops) are
modelled over `ℚ`; quantities that go through transcendental library calls
(`Math.log`, GLSL `log`/`log2`) are modelled over `ℝ`.
-/

namespace Fractales

/-! ## Viewport (TransformUtils.Viewport, transform-utils.js)

The JS class keeps four live fields (`centerX`, `centerY`, `zoom`, `rotation`)
and four target fields written by `setTarget`; `animationSpeed` is the
constant 0.15 set by the constructor. -/

structure Viewport where
  centerX : ℚ
  centerY : ℚ
  zoom : ℚ
  rotation : ℚ
  targetCenterX : ℚ
  targetCenterY : ℚ
  targetZoom : ℚ
  targetRotation : ℚ
deriving DecidableEq, Repr

/-- The `Viewport` constructor: every live and target field is initialised
from the arguments, with no clamping of any kind. -/
def viewportInit (centerX centerY zoom rotation : ℚ) : Viewport :=
  { centerX := centerX, centerY := centerY, zoom := zoom, rotation := rotation
    targetCenterX := centerX, targetCenterY := centerY
    targetZoom := zoom, targetRotation := rotation }

/-- `Viewport.setTarget(centerX, centerY, zoom, rotation)`:
writes the four target fields; the target zoom is clamped below by 0.0001
(`Math.max(0.0001, zoom)`). -/
def setTarget (v : Viewport) (centerX centerY zoom rotation : ℚ) : Viewport :=
  { v with
    targetCenterX := centerX
    targetCenterY := centerY
    targetZoom := max (1/10000) zoom
    targetRotation := rotation }

/-- The per-frame animation step `Viewport.update()`: each live field moves
15% (`animationSpeed = 0.15`) of the remaining distance toward its target
when the distance exceeds the threshold `1e-8`, and snaps to the target
otherwise. -/
def viewportUpdate (v : Viewport) : Viewport :=
  let threshold : ℚ := 1/100000000
  let speed : ℚ := 15/100
  let dx := v.targetCenterX - v.centerX
  let dy := v.targetCenterY - v.centerY
  let dz := v.targetZoom - v.zoom
  let dr := v.targetRotation - v.rotation
  { v with
    centerX := if |dx| > threshold then v.centerX + dx * speed else v.targetCenterX
    centerY := if |dy| > threshold then v.centerY + dy * speed else v.targetCenterY
    zoom := if |dz| > threshold then v.zoom + dz * speed else v.targetZoom
    rotation := if |dr| > threshold then v.rotation + dr * speed else v.targetRotation }

/-! ## Coordinate transforms (MathUtils.Transform, math-utils.js)

Both functions read the live fields `centerX`, `centerY`, `zoom` of the
viewport passed to them. -/

/-- `MathUtils.Transform.screenToComplex(x, y, width, height, viewport)`. -/
def screenToComplex (x y width height : ℚ) (v : Viewport) : ℚ × ℚ :=
  let aspect := width / height
  let range := 4 / v.zoom
  ((x / width - 1/2) * range * aspect + v.centerX,
   (1/2 - y / height) * range + v.centerY)

/-- `MathUtils.Transform.complexToScreen(real, imag, width, height, viewport)`. -/
def complexToScreen (real imag width height : ℚ) (v : Viewport) : ℚ × ℚ :=
  let aspect := width / height
  let range := 4 / v.zoom
  (((real - v.centerX) / (range * aspect) + 1/2) * width,
   (1/2 - (imag - v.centerY) / range) * height)

/-- `Viewport.zoomAt(factor, centerX, centerY, canvasWidth, canvasHeight)`:
converts the cursor position to a complex point using the live fields,
multiplies the target zoom by `factor`, and recenters the target so the
cursor's complex point would stay fixed; all writes go through `setTarget`. -/
def zoomAt (v : Viewport) (factor screenX screenY canvasWidth canvasHeight : ℚ) :
    Viewport :=
  let complex := screenToComplex screenX screenY canvasWidth canvasHeight v
  let newZoom := v.targetZoom * factor
  let offsetX := complex.1 - v.targetCenterX
  let offsetY := complex.2 - v.targetCenterY
  let newCenterX := complex.1 - offsetX / factor
  let newCenterY := complex.2 - offsetY / factor
  setTarget v newCenterX newCenterY newZoom v.targetRotation

/-! ## Escape-time evaluator (MandelbrotFractal.getFragmentShaderSource,
mandelbrot.js, standard-precision loop)

The fragment shader iterates `z ← z² + c` from `z = 0`, testing
`magnitudeSquared > escapeRadiusSquared` *before* each step; on escape it
records the loop index `i`, otherwise `iterations` ends at the iteration
cap.  The cap is `u_maxIterations` clamped to at most 4000 by
`if (maxIter > 4000) maxIter = 4000;` together with the fixed loop bound. -/

/-- `complexMagnitudeSquared` from the shader (`z.x*z.x + z.y*z.y`). -/
def magnitudeSquared (z : ℚ × ℚ) : ℚ := z.1 * z.1 + z.2 * z.2

/-- One loop step `z = complexSquare(z) + c`. -/
def mandelStep (c z : ℚ × ℚ) : ℚ × ℚ :=
  (z.1 * z.1 - z.2 * z.2 + c.1, 2 * z.1 * z.2 + c.2)

/-- The orbit of `0` under `z ← z² + c`. -/
def mandelOrbit (c : ℚ × ℚ) (n : ℕ) : ℚ × ℚ := (mandelStep c)^[n] (0, 0)

/-- The shader loop: at index `i`, escape (returning `i`) when
`magnitudeSquared z > escapeRadiusSquared`, else step and continue; when the
fuel (remaining allowed iterations) runs out, return the running
`iterations` counter. -/
def escapeLoop (c : ℚ × ℚ) (escapeRadiusSquared : ℚ) :
    ℕ → ℚ × ℚ → ℕ → ℕ
  | 0, _, iterations => iterations
  | fuel + 1, z, i =>
    if magnitudeSquared z > escapeRadiusSquared then i
    else escapeLoop c escapeRadiusSquared fuel (mandelStep c z) (i + 1)

/-- The iteration count the standard-precision Mandelbrot loop produces for a
point `c` (non-smooth path): the escape index if the orbit escapes within the
clamped cap `min maxIterations 4000`, the clamped cap otherwise. -/
def mandelbrotIterations (c : ℚ × ℚ) (escapeRadius : ℚ) (maxIterations : ℕ) : ℕ :=
  escapeLoop c (escapeRadius * escapeRadius) (min maxIterations 4000) (0, 0) 0

/-- The shader's in-set classification `iterations >= float(u_maxIterations)`
(compared against the unclamped cap). -/
def mandelbrotInSet (c : ℚ × ℚ) (escapeRadius : ℚ) (maxIterations : ℕ) : Prop :=
  mandelbrotIterations c escapeRadius maxIterations ≥ maxIterations

instance (c : ℚ × ℚ) (R : ℚ) (n : ℕ) : Decidable (mandelbrotInSet c R n) := by
  unfold mandelbrotInSet; infer_instance

/-! ## Iteration-to-color mapping (mandelbrot.js fragment shader)

`getColor(t, scheme)` first takes `t = fract(t)` and then blends one of four
palettes; schemes 0–2 share the same three-band structure
(`t < 0.33`, `t < 0.66`, else) with different gradient stops, scheme 3 is an
HSV rainbow.  GLSL `mix`, `fract` and `mod` are modelled exactly. -/

/-- GLSL `fract(t) = t - floor(t)`. -/
def glslFract (t : ℚ) : ℚ := t - ⌊t⌋

/-- GLSL `mod(x, y) = x - y * floor(x/y)`. -/
def glslMod (x y : ℚ) : ℚ := x - y * ⌊x / y⌋

/-- GLSL `mix(a, b, x) = a * (1-x) + b * x`. -/
def glslMix (a b x : ℚ) : ℚ := a + (b - a) * x

/-- Componentwise `mix` on RGB triples. -/
def mix3 (a b : ℚ × ℚ × ℚ) (x : ℚ) : ℚ × ℚ × ℚ :=
  (glslMix a.1 b.1 x, glslMix a.2.1 b.2.1 x, glslMix a.2.2 b.2.2 x)

/-- The three-band gradient shared by schemes 0–2 of `getColor`:
`mix(c1, c2, t*3)` for `t < 0.33`, `mix(c2, c3, (t-0.33)*3)` for
`t < 0.66`, and `mix(c3, c4, (t-0.66)*3)` otherwise. -/
def gradientBands (c1 c2 c3 c4 : ℚ × ℚ × ℚ) (t : ℚ) : ℚ × ℚ × ℚ :=
  if t < 33/100 then mix3 c1 c2 (t * 3)
  else if t < 66/100 then mix3 c2 c3 ((t - 33/100) * 3)
  else mix3 c3 c4 ((t - 66/100) * 3)

/-- `getColor(t, scheme)` from the Mandelbrot fragment shader: classic (0),
fire (1), ice (2) gradient palettes, HSV rainbow otherwise. -/
def getColor (t0 : ℚ) (scheme : ℤ) : ℚ × ℚ × ℚ :=
  let t := glslFract t0
  if scheme = 0 then
    gradientBands (0, 0, 1/2) (0, 1/2, 1) (1, 1, 0) (1, 0, 0) t
  else if scheme = 1 then
    gradientBands (0, 0, 0) (1, 0, 0) (1, 1, 0) (1, 1, 1) t
  else if scheme = 2 then
    gradientBands (0, 0, 1/10) (0, 1/2, 1) (1/2, 4/5, 1) (1, 1, 1) t
  else
    let hue := t * 6
    let c : ℚ := 1
    let x := c * (1 - |glslMod hue 2 - 1|)
    if hue < 1 then (c, x, 0)
    else if hue < 2 then (x, c, 0)
    else if hue < 3 then (0, c, x)
    else if hue < 4 then (0, x, c)
    else if hue < 5 then (x, 0, c)
    else (c, 0, x)

/-- The shader's per-pixel coloring decision: points with
`iterations >= maxIterations` are pure black, escaped points go through
`getColor(iterations / maxIterations, scheme)` (the optional dithering for
zoom > 5 comes after this mapping and is not part of it). -/
def mandelbrotPixelColor (iterations maxIterations : ℚ) (scheme : ℤ) :
    ℚ × ℚ × ℚ :=
  if iterations ≥ maxIterations then (0, 0, 0)
  else getColor (iterations / maxIterations) scheme

/-- A color channel lies in `[-1/50, 51/50]` (the range `getColor` actually
guarantees; `[0,1]` fails on the last gradient band). -/
def channelInRange (v : ℚ) : Prop := -1/50 ≤ v ∧ v ≤ 51/50

/-- All three channels lie in `[-1/50, 51/50]`. -/
def colorInRange (c : ℚ × ℚ × ℚ) : Prop :=
  channelInRange c.1 ∧ channelInRange c.2.1 ∧ channelInRange c.2.2

/-! ## Adaptive quality policy (BaseFractal, base-fractal.js)

`shouldUseHighPrecision(zoom)` returns `zoom > 20 || this.parameters.highPrecision`;
`needsCompleteRecalculation(zoom)` returns `zoom > 1000000`; the Mandelbrot
fragment shader runs its compensated (double-double) branch only under
`u_highPrecision && u_zoom > 100.0`. -/

/-- The mutable parameter record of `BaseFractal` (the fields the update path
touches). -/
structure FractalParams where
  maxIterations : ℤ
  escapeRadius : ℚ
  zoom : ℚ
  centerX : ℚ
  centerY : ℚ
  rotation : ℚ
  highPrecision : Bool
deriving DecidableEq, Repr

/-- The defaults installed by the `BaseFractal` constructor. -/
def defaultParameters : FractalParams :=
  { maxIterations := 256, escapeRadius := 2, zoom := 1
    centerX := 0, centerY := 0, rotation := 0, highPrecision := false }

/-- A `newParams` object: each field is present (`some`) or absent (`none`,
i.e. `hasOwnProperty` false). -/
structure NewParams where
  maxIterations : Option ℤ := none
  escapeRadius : Option ℚ := none
  zoom : Option ℚ := none
  centerX : Option ℚ := none
  centerY : Option ℚ := none
  rotation : Option ℚ := none
  highPrecision : Option Bool := none
deriving DecidableEq, Repr

/-- `Object.assign(this.parameters, newParams)`: present fields overwrite. -/
def assignParams (p : FractalParams) (np : NewParams) : FractalParams :=
  { maxIterations := np.maxIterations.getD p.maxIterations
    escapeRadius := np.escapeRadius.getD p.escapeRadius
    zoom := np.zoom.getD p.zoom
    centerX := np.centerX.getD p.centerX
    centerY := np.centerY.getD p.centerY
    rotation := np.rotation.getD p.rotation
    highPrecision := np.highPrecision.getD p.highPrecision }

/-- `BaseFractal.shouldUseHighPrecision(zoom)`. -/
def shouldUseHighPrecision (p : FractalParams) (zoom : ℚ) : Bool :=
  decide (zoom > 20) || p.highPrecision

/-- `BaseFractal.needsCompleteRecalculation(zoom)`. -/
def needsCompleteRecalculation (zoom : ℚ) : Bool :=
  decide (zoom > 1000000)

/-- `BaseFractal.getAdaptiveEscapeRadius(zoom)`. -/
def getAdaptiveEscapeRadius (p : FractalParams) (zoom : ℚ) : ℚ :=
  if zoom > 10000 then min (p.escapeRadius * (3/2)) 10 else p.escapeRadius

/-- `BaseFractal.updateIterations(iterations)`: clamp into `[1, 8000]`. -/
def updateIterations (p : FractalParams) (iterations : ℤ) : FractalParams :=
  { p with maxIterations := max 1 (min 8000 iterations) }

/-- `BaseFractal.updateParametersForInfiniteZoom(newParams)` (the path every
`updateParameters` call takes): save the current iteration count, assign all
supplied fields, restore `maxIterations` when it was not supplied; when a
truthy `zoom` was supplied recompute `highPrecision` and `escapeRadius`; when
`maxIterations` was supplied route it through `updateIterations`. -/
def updateParametersForInfiniteZoom (p : FractalParams) (np : NewParams) :
    FractalParams :=
  let currentIterations := p.maxIterations
  let p1 := assignParams p np
  let p2 := if np.maxIterations.isSome then p1
            else { p1 with maxIterations := currentIterations }
  let p3 := match np.zoom with
    | some z =>
      if z ≠ 0 then
        { p2 with
          highPrecision := shouldUseHighPrecision p2 z ||
            needsCompleteRecalculation z
          escapeRadius := getAdaptiveEscapeRadius p2 z }
      else p2
    | none => p2
  match np.maxIterations with
  | some iterations => updateIterations p3 iterations
  | none => p3

/-- The Mandelbrot shader's per-pixel branch condition
`u_highPrecision && u_zoom > 100.0` selecting the compensated
(double-double) iteration loop. -/
def shaderUsesHighPrecision (highPrecision : Bool) (zoom : ℚ) : Bool :=
  highPrecision && decide (zoom > 100)

/-! ## Recursive geometry generators (koch-curve.js, sierpinski.js,
fractal-tree.js)

The generators are translated with their exact recursive structure; the
irrational constants the source obtains from `Math.sqrt(3)` and
`Math.sin`/`Math.cos` (of the branch angle converted to radians) are passed
in as parameters `sqrt3 : ℚ` and `sinDeg cosDeg : ℚ → ℚ`, which the output
sizes do not depend on. -/

/-- `KochCurveFractal.generateKochSide(start, end, depth)`: at depth 0 emit
the segment; otherwise split at the third points and the peak and recurse on
the four sub-segments. -/
def generateKochSide (sqrt3 : ℚ) :
    ℕ → ℚ × ℚ → ℚ × ℚ → List ((ℚ × ℚ) × (ℚ × ℚ))
  | 0, start, stop => [(start, stop)]
  | depth + 1, start, stop =>
    let dx := stop.1 - start.1
    let dy := stop.2 - start.2
    let p1 := (start.1 + dx / 3, start.2 + dy / 3)
    let p2 := (start.1 + 2 * dx / 3, start.2 + 2 * dy / 3)
    let peak := (start.1 + dx / 2 - dy * sqrt3 / 6,
                 start.2 + dy / 2 + dx * sqrt3 / 6)
    generateKochSide sqrt3 depth start p1 ++
      generateKochSide sqrt3 depth p1 peak ++
      generateKochSide sqrt3 depth peak p2 ++
      generateKochSide sqrt3 depth p2 stop

/-- `KochCurveFractal.generateKochCurve()`: the three sides of the seed
equilateral triangle (side 0.8), each expanded to the configured recursion
depth. -/
def generateKochCurve (sqrt3 : ℚ) (recursionDepth : ℕ) :
    List ((ℚ × ℚ) × (ℚ × ℚ)) :=
  let side : ℚ := 4/5
  let height := side * sqrt3 / 2
  let p1 := (-side / 2, -height / 3)
  let p2 := (side / 2, -height / 3)
  let p3 := ((0 : ℚ), 2 * height / 3)
  generateKochSide sqrt3 recursionDepth p1 p2 ++
    generateKochSide sqrt3 recursionDepth p2 p3 ++
    generateKochSide sqrt3 recursionDepth p3 p1

/-- `SierpinskiFractal.generateSierpinskiRecursive(p1, p2, p3, depth,
currentDepth)`: at depth 0 emit the triangle (with its depth tag); otherwise
subdivide at the midpoints into the three corner triangles. -/
def generateSierpinskiRecursive :
    ℚ × ℚ → ℚ × ℚ → ℚ × ℚ → ℕ → ℕ →
      List ((ℚ × ℚ) × (ℚ × ℚ) × (ℚ × ℚ) × ℕ)
  | p1, p2, p3, 0, currentDepth => [(p1, p2, p3, currentDepth)]
  | p1, p2, p3, depth + 1, currentDepth =>
    let m1 := ((p1.1 + p2.1) / 2, (p1.2 + p2.2) / 2)
    let m2 := ((p2.1 + p3.1) / 2, (p2.2 + p3.2) / 2)
    let m3 := ((p3.1 + p1.1) / 2, (p3.2 + p1.2) / 2)
    generateSierpinskiRecursive p1 m1 m3 depth (currentDepth + 1) ++
      generateSierpinskiRecursive m1 p2 m2 depth (currentDepth + 1) ++
      generateSierpinskiRecursive m3 m2 p3 depth (currentDepth + 1)

/-- `SierpinskiFractal.generateSierpinskiTriangle()`: seed equilateral
triangle of size 0.8 expanded to the configured depth. -/
def generateSierpinskiTriangle (sqrt3 : ℚ) (recursionDepth : ℕ) :
    List ((ℚ × ℚ) × (ℚ × ℚ) × (ℚ × ℚ) × ℕ) :=
  let size : ℚ := 4/5
  let height := size * sqrt3 / 2
  generateSierpinskiRecursive (0, height / 2) (-size / 2, -height / 2)
    (size / 2, -height / 2) recursionDepth 0

/-- `FractalTreeFractal.generateBranch(...)`: always record the current
branch (endpoints and depth tag); while `depth > 0`, spawn the left and
right children at angles `angle ∓ spreadNow` with length scaled by
`lengthRatio`, where `spreadNow = branchAngle + 10 * currentDepth /
recursionDepth`.  `sinDeg`/`cosDeg` stand for
`Math.sin`/`Math.cos` applied to the angle converted to radians. -/
def generateBranch (sinDeg cosDeg : ℚ → ℚ) (lengthRatio branchAngle : ℚ)
    (recursionDepth : ℕ) :
    ℚ × ℚ → ℚ × ℚ → ℚ → ℕ → ℕ → ℚ → List ((ℚ × ℚ) × (ℚ × ℚ) × ℕ)
  | start, stop, _, 0, currentDepth, _ => [(start, stop, currentDepth)]
  | start, stop, angle, depth + 1, currentDepth, length =>
    let newLength := length * lengthRatio
    let tDepth := (currentDepth : ℚ) / (recursionDepth : ℚ)
    let spreadNow := branchAngle + 10 * tDepth
    let leftAngle := angle - spreadNow
    let rightAngle := angle + spreadNow
    let leftStop := (stop.1 + sinDeg leftAngle * newLength,
                     stop.2 + cosDeg leftAngle * newLength)
    let rightStop := (stop.1 + sinDeg rightAngle * newLength,
                      stop.2 + cosDeg rightAngle * newLength)
    (start, stop, currentDepth) ::
      (generateBranch sinDeg cosDeg lengthRatio branchAngle recursionDepth
          stop leftStop leftAngle depth (currentDepth + 1) newLength ++
        generateBranch sinDeg cosDeg lengthRatio branchAngle recursionDepth
          stop rightStop rightAngle depth (currentDepth + 1) newLength)

/-- `FractalTreeFractal.generateFractalTree()`: the trunk starts at
`(0, -0.95)` with length 0.45 and angle 0 and is expanded to the configured
recursion depth. -/
def generateFractalTree (sinDeg cosDeg : ℚ → ℚ)
    (lengthRatio branchAngle : ℚ) (recursionDepth : ℕ) :
    List ((ℚ × ℚ) × (ℚ × ℚ) × ℕ) :=
  let trunkLength : ℚ := 45/100
  let startX : ℚ := 0
  let startY : ℚ := -95/100
  generateBranch sinDeg cosDeg lengthRatio branchAngle recursionDepth
    (startX, startY) (startX, startY + trunkLength) 0 recursionDepth 0
    trunkLength

/-! ## Smooth-coloring formulas (mandelbrot.js and julia.js shaders)

On escape at loop index `i` with `u_smoothColoring` on, mandelbrot.js
computes `float(i) + 1.0 - log(logMag / log(u_escapeRadius)) / log(2.0)`
with `logMag = log(magnitudeSquared) * 0.5`, while julia.js computes
`float(i) + 1.0 - log2(log2(magnitudeSquared) / 2.0)`.  GLSL `log` is the
natural logarithm and `log2` the base-2 logarithm. -/

/-- The Mandelbrot shader's smooth fractional escape time. -/
noncomputable def mandelbrotSmoothIterations (i : ℕ)
    (magnitudeSq escapeRadius : ℝ) : ℝ :=
  let logMag := Real.log magnitudeSq * 0.5
  i + 1 - Real.log (logMag / Real.log escapeRadius) / Real.log 2

/-- The Julia shader's smooth fractional escape time (it does not read
`u_escapeRadius`). -/
noncomputable def juliaSmoothIterations (i : ℕ) (magnitudeSq : ℝ) : ℝ :=
  i + 1 - Real.logb 2 (Real.logb 2 magnitudeSq / 2)

/-- Modelled from the spec: the smooth escape time
`i + 1 − log(log(|z|²)/2 / log(escapeRadius)) / log(2)` stated in §4.4,
written from the spec's words for comparison with the two shader
formulas. -/
noncomputable def specSmoothEscapeTime (i : ℕ)
    (magnitudeSq escapeRadius : ℝ) : ℝ :=
  i + 1 - Real.log ((Real.log magnitudeSq / 2) / Real.log escapeRadius) /
    Real.log 2

/-! ## JavaScript float semantics for the CPU color path
(MathUtils.Color.iterationToColor, math-utils.js)

`iterationToColor` computes
`smoothed = iterations + 1 - Math.log2(Math.log2(iterations + 1))` and
`hue = (smoothed / maxIterations * 360) % 360` with no guard against the
non-finite intermediate values IEEE-754 produces; the value type below
models a JS number as finite/±Infinity/NaN with the corresponding
operation semantics. -/

inductive JsNum where
  | fin (x : ℝ)
  | posInf
  | negInf
  | nan

def jsNeg : JsNum → JsNum
  | .fin x => .fin (-x)
  | .posInf => .negInf
  | .negInf => .posInf
  | .nan => .nan

def jsAdd : JsNum → JsNum → JsNum
  | .nan, _ => .nan
  | _, .nan => .nan
  | .fin a, .fin b => .fin (a + b)
  | .fin _, .posInf => .posInf
  | .fin _, .negInf => .negInf
  | .posInf, .fin _ => .posInf
  | .negInf, .fin _ => .negInf
  | .posInf, .posInf => .posInf
  | .negInf, .negInf => .negInf
  | .posInf, .negInf => .nan
  | .negInf, .posInf => .nan

def jsSub (a b : JsNum) : JsNum := jsAdd a (jsNeg b)

noncomputable def jsMul : JsNum → JsNum → JsNum
  | .nan, _ => .nan
  | _, .nan => .nan
  | .fin a, .fin b => .fin (a * b)
  | .posInf, .fin b => if 0 < b then .posInf else if b < 0 then .negInf else .nan
  | .fin a, .posInf => if 0 < a then .posInf else if a < 0 then .negInf else .nan
  | .negInf, .fin b => if 0 < b then .negInf else if b < 0 then .posInf else .nan
  | .fin a, .negInf => if 0 < a then .negInf else if a < 0 then .posInf else .nan
  | .posInf, .posInf => .posInf
  | .negInf, .negInf => .posInf
  | .posInf, .negInf => .negInf
  | .negInf, .posInf => .negInf

noncomputable def jsDiv : JsNum → JsNum → JsNum
  | .nan, _ => .nan
  | _, .nan => .nan
  | .fin a, .fin b =>
    if b = 0 then (if a = 0 then .nan else if 0 < a then .posInf else .negInf)
    else .fin (a / b)
  | .posInf, .fin b => if 0 ≤ b then .posInf else .negInf
  | .negInf, .fin b => if 0 ≤ b then .negInf else .posInf
  | .fin _, .posInf => .fin 0
  | .fin _, .negInf => .fin 0
  | .posInf, .posInf => .nan
  | .posInf, .negInf => .nan
  | .negInf, .posInf => .nan
  | .negInf, .negInf => .nan

/-- Truncation toward zero, as used by the JS `%` remainder. -/
noncomputable def jsTrunc (x : ℝ) : ℝ :=
  if 0 ≤ x then (⌊x⌋ : ℝ) else -(⌊-x⌋ : ℝ)

noncomputable def jsMod : JsNum → JsNum → JsNum
  | .nan, _ => .nan
  | _, .nan => .nan
  | .posInf, _ => .nan
  | .negInf, _ => .nan
  | .fin a, .fin b => if b = 0 then .nan else .fin (a - b * jsTrunc (a / b))
  | .fin a, .posInf => .fin a
  | .fin a, .negInf => .fin a

/-- `Math.log2`: `-Infinity` at 0, `NaN` for negative or `NaN` or
`-Infinity` arguments. -/
noncomputable def jsLog2 : JsNum → JsNum
  | .nan => .nan
  | .negInf => .nan
  | .posInf => .posInf
  | .fin x => if 0 < x then .fin (Real.logb 2 x) else if x = 0 then .negInf else .nan

/-- `iterationToColor`'s intermediate
`smoothed = iterations + 1 - Math.log2(Math.log2(iterations + 1))`. -/
noncomputable def iterationToColorSmoothed (iterations : JsNum) : JsNum :=
  jsSub (jsAdd iterations (.fin 1))
    (jsLog2 (jsLog2 (jsAdd iterations (.fin 1))))

/-- `iterationToColor`'s hue `(smoothed / maxIterations * 360) % 360`, the
value handed to `hsvToRgb`. -/
noncomputable def iterationToColorHue (iterations maxIterations : JsNum) : JsNum :=
  jsMod
    (jsMul (jsDiv (iterationToColorSmoothed iterations) maxIterations)
      (.fin 360))
    (.fin 360)

end Fractales

open Fractales

/-- If no orbit point within `fuel` steps exceeds the escape bound, the loop
runs to exhaustion and returns `i + fuel`. -/
theorem escapeLoop_eq_of_no_escape (c : ℚ × ℚ) (R2 : ℚ) :
    ∀ (fuel : ℕ) (z : ℚ × ℚ) (i : ℕ),
      (∀ j < fuel, ¬ magnitudeSquared ((mandelStep c)^[j] z) > R2) →
      escapeLoop c R2 fuel z i = i + fuel := by
  intro fuel
  induction fuel with
  | zero => intro z i _; rfl
  | succ n ih =>
    intro z i h
    have h0 : ¬ magnitudeSquared z > R2 := by
      have := h 0 (Nat.succ_pos n)
      simpa using this
    rw [escapeLoop, if_neg h0, ih (mandelStep c z) (i + 1)]
    · omega
    · intro j hj
      have := h (j + 1) (Nat.succ_lt_succ hj)
      simpa [Function.iterate_succ_apply] using this

/-- If some orbit point within `fuel` steps exceeds the escape bound, the loop
breaks early: the result is strictly below `i + fuel`. -/
theorem escapeLoop_lt_of_escape (c : ℚ × ℚ) (R2 : ℚ) :
    ∀ (fuel : ℕ) (z : ℚ × ℚ) (i : ℕ),
      (∃ j < fuel, magnitudeSquared ((mandelStep c)^[j] z) > R2) →
      escapeLoop c R2 fuel z i < i + fuel := by
  intro fuel
  induction fuel with
  | zero => rintro z i ⟨j, hj, -⟩; omega
  | succ n ih =>
    rintro z i ⟨j, hj, hesc⟩
    by_cases h0 : magnitudeSquared z > R2
    · rw [escapeLoop, if_pos h0]; omega
    · rw [escapeLoop, if_neg h0]
      have hj0 : j ≠ 0 := by
        rintro rfl; exact h0 (by simpa using hesc)
      obtain ⟨j', rfl⟩ := Nat.exists_eq_succ_of_ne_zero hj0
      have := ih (mandelStep c z) (i + 1)
        ⟨j', Nat.lt_of_succ_lt_succ hj, by
          simpa [Function.iterate_succ_apply] using hesc⟩
      omega

/-- The orbit of `c = 0` is constantly `0`. -/
theorem mandelOrbit_zero (n : ℕ) : mandelOrbit (0, 0) n = (0, 0) := by
  induction n with
  | zero => rfl
  | succ k ih =>
    rw [mandelOrbit, Function.iterate_succ_apply', ← mandelOrbit, ih]
    norm_num [mandelStep]

/-- The orbit of `c = -1` is the period-2 cycle `{0, -1}`. -/
theorem mandelOrbit_neg_one (n : ℕ) :
    mandelOrbit (-1, 0) n = (0, 0) ∨ mandelOrbit (-1, 0) n = (-1, 0) := by
  induction n with
  | zero => left; rfl
  | succ k ih =>
    rw [mandelOrbit, Function.iterate_succ_apply', ← mandelOrbit]
    rcases ih with h | h <;> rw [h]
    · right; norm_num [mandelStep]
    · left; norm_num [mandelStep]

/-- C1 counterexample: with escape radius 2 the point `c = 2 + 0i` does not
escape within 1 iteration: `|z₁|² = 4` is not strictly greater than
`escapeRadius² = 4`, so the loop escapes only at iteration 2 (where
`z₂ = 6`). -/
theorem mandelbrot_two_escapes_at_two :
    mandelbrotIterations (2, 0) 2 1000 = 2 ∧
      ¬ mandelbrotIterations (2, 0) 2 1000 ≤ 1 := by
  have h : mandelbrotIterations (2, 0) 2 1000 = 2 := by
    rw [mandelbrotIterations, show min 1000 4000 = 1000 by norm_num,
      show (1000 : ℕ) = 997 + 3 by norm_num]
    rw [escapeLoop, if_neg (by norm_num [magnitudeSquared]),
      show mandelStep (2, 0) (0, 0) = (2, 0) by norm_num [mandelStep],
      escapeLoop, if_neg (by norm_num [magnitudeSquared]),
      show mandelStep (2, 0) (2, 0) = (6, 0) by norm_num [mandelStep],
      escapeLoop, if_pos (by norm_num [magnitudeSquared])]
  exact ⟨h, by omega⟩

/-- C1 amended: in the standard-precision loop with `escapeRadius = 2` and an
iteration cap within the shader's hard clamp of 4000: a point escapes exactly
when some orbit point has `|z|²` strictly exceeding `escapeRadius²`;
`c = 0 + 0i` is classified in the set for every such cap; `c = 2 + 0i`
escapes at iteration 2 (not within 1: `|z₁|² = 4` is not strictly greater
than 4) for every cap ≥ 3; and `c = -1 + 0i` is classified in the set for
every such cap ≥ 2. -/
theorem mandelbrot_known_points (cap : ℕ) (hcap : cap ≤ 4000) :
    (∀ (c : ℚ × ℚ) (R : ℚ),
      mandelbrotIterations c R cap < cap ↔
        ∃ i < cap, magnitudeSquared (mandelOrbit c i) > R * R) ∧
    mandelbrotInSet (0, 0) 2 cap ∧
    (3 ≤ cap → mandelbrotIterations (2, 0) 2 cap = 2) ∧
    (2 ≤ cap → mandelbrotInSet (-1, 0) 2 cap) := by
  have hmin : min cap 4000 = cap := Nat.min_eq_left hcap
  refine ⟨?_, ?_, ?_, ?_⟩
  · intro c R
    constructor
    · intro hlt
      by_contra hno
      push_neg at hno
      rw [mandelbrotIterations, hmin,
        escapeLoop_eq_of_no_escape c (R * R) cap (0, 0) 0
          (fun j hj => not_lt.mpr (hno j hj))] at hlt
      omega
    · intro ⟨j, hj, hesc⟩
      rw [mandelbrotIterations, hmin]
      have := escapeLoop_lt_of_escape c (R * R) cap (0, 0) 0 ⟨j, hj, hesc⟩
      omega
  · rw [mandelbrotInSet, mandelbrotIterations, hmin,
      escapeLoop_eq_of_no_escape (0, 0) (2 * 2) cap (0, 0) 0
        (fun j _ => by
          rw [show (mandelStep (0, 0))^[j] (0, 0) = mandelOrbit (0, 0) j from rfl,
            mandelOrbit_zero]
          norm_num [magnitudeSquared])]
    omega
  · intro hcap3
    obtain ⟨m, rfl⟩ : ∃ m, cap = m + 3 := ⟨cap - 3, by omega⟩
    rw [mandelbrotIterations, hmin]
    show escapeLoop (2, 0) (2 * 2) (m + 3) (0, 0) 0 = 2
    rw [escapeLoop, if_neg (by norm_num [magnitudeSquared]),
      show mandelStep (2, 0) (0, 0) = (2, 0) by norm_num [mandelStep],
      escapeLoop, if_neg (by norm_num [magnitudeSquared]),
      show mandelStep (2, 0) (2, 0) = (6, 0) by norm_num [mandelStep],
      escapeLoop, if_pos (by norm_num [magnitudeSquared])]
  · intro _
    rw [mandelbrotInSet, mandelbrotIterations, hmin,
      escapeLoop_eq_of_no_escape (-1, 0) (2 * 2) cap (0, 0) 0
        (fun j _ => by
          rw [show (mandelStep (-1, 0))^[j] (0, 0) = mandelOrbit (-1, 0) j from rfl]
          rcases mandelOrbit_neg_one j with h | h <;>
            rw [h] <;> norm_num [magnitudeSquared])]
    omega

/-- Witness for C1's amended theorem at cap 10. -/
theorem mandelbrot_known_points_witness :
    mandelbrotInSet (0, 0) 2 10 ∧ mandelbrotIterations (2, 0) 2 10 = 2 ∧
      mandelbrotInSet (-1, 0) 2 10 :=
  ⟨(mandelbrot_known_points 10 (by norm_num)).2.1,
   (mandelbrot_known_points 10 (by norm_num)).2.2.1 (by norm_num),
   (mandelbrot_known_points 10 (by norm_num)).2.2.2 (by norm_num)⟩

/-- C2: after `zoomAt(factor, sx, sy, w, h)` the complex point that
`screenToComplex` assigns to the cursor position is unchanged (exactly, over
`ℚ`): `zoomAt` routes all its writes through `setTarget`, which mutates only
the target fields, while `screenToComplex` reads only the live fields
`zoom`, `centerX`, `centerY`. -/
theorem zoomAt_preserves_cursor_point (v : Viewport) (factor sx sy w h : ℚ)
    (hz : 0 < v.zoom) (hw : 0 < w) (hh : 0 < h) (hf : 0 < factor) :
    screenToComplex sx sy w h (zoomAt v factor sx sy w h) =
      screenToComplex sx sy w h v := by
  rfl

/-- Witness for C2 at a concrete viewport and cursor. -/
theorem zoomAt_preserves_cursor_point_witness :
    screenToComplex 10 20 800 600 (zoomAt (viewportInit 0 0 1 0) 2 10 20 800 600) =
      screenToComplex 10 20 800 600 (viewportInit 0 0 1 0) :=
  zoomAt_preserves_cursor_point (viewportInit 0 0 1 0) 2 10 20 800 600
    (by norm_num [viewportInit]) (by norm_num) (by norm_num) (by norm_num)

/-- C3: `complexToScreen` inverts `screenToComplex` exactly over `ℚ`
(the floating-point tolerance of the claim is not needed in exact
arithmetic), for any pixel, any positive canvas size and any viewport with
positive zoom. -/
theorem complexToScreen_screenToComplex (x y w h : ℚ) (v : Viewport)
    (hz : 0 < v.zoom) (hw : 0 < w) (hh : 0 < h) :
    complexToScreen (screenToComplex x y w h v).1 (screenToComplex x y w h v).2
      w h v = (x, y) := by
  have hz' : v.zoom ≠ 0 := ne_of_gt hz
  have hw' : w ≠ 0 := ne_of_gt hw
  have hh' : h ≠ 0 := ne_of_gt hh
  simp only [screenToComplex, complexToScreen, Prod.mk.injEq]
  constructor <;> field_simp <;> ring

/-- Witness for C3 at a concrete pixel/canvas/viewport. -/
theorem complexToScreen_screenToComplex_witness :
    complexToScreen (screenToComplex 123 45 800 600 (viewportInit 0 0 1 0)).1
      (screenToComplex 123 45 800 600 (viewportInit 0 0 1 0)).2
      800 600 (viewportInit 0 0 1 0) = (123, 45) :=
  complexToScreen_screenToComplex 123 45 800 600 (viewportInit 0 0 1 0)
    (by norm_num [viewportInit]) (by norm_num) (by norm_num)

/-- C8 counterexample: the `Viewport` constructor performs no clamping, so a
viewport constructed with zoom `-1` has live zoom `-1` and target zoom `-1`,
violating the claimed always-positive invariant at construction time. -/
theorem viewport_constructor_no_clamp :
    (viewportInit 0 0 (-1) 0).zoom = -1 ∧
      (viewportInit 0 0 (-1) 0).targetZoom = -1 ∧
      ¬ 0 < (viewportInit 0 0 (-1) 0).zoom := by
  refine ⟨rfl, rfl, ?_⟩
  norm_num [viewportInit]

/-- C8 amended: `setTarget` (hence every operation routed through it) clamps
the target zoom to at least `1e-4`, and the animation step keeps the live
zoom positive whenever both the live and the target zoom are positive; the
constructor, however, stores its zoom argument unclamped. -/
theorem viewport_zoom_invariant
    (v : Viewport) (cx cy z r : ℚ) (hl : 0 < v.zoom) (ht : 0 < v.targetZoom) :
    1/10000 ≤ (setTarget v cx cy z r).targetZoom ∧
      0 < (viewportUpdate v).zoom := by
  constructor
  · exact le_max_left _ _
  · simp only [viewportUpdate]
    split
    · nlinarith
    · exact ht

/-- Witness for C8's amended theorem at a concrete viewport. -/
theorem viewport_zoom_invariant_witness :
    1/10000 ≤ (setTarget (viewportInit 0 0 1 0) 3 4 (-7) 0).targetZoom ∧
      0 < (viewportUpdate (viewportInit 0 0 1 0)).zoom :=
  viewport_zoom_invariant (viewportInit 0 0 1 0) 3 4 (-7) 0
    (by norm_num [viewportInit]) (by norm_num [viewportInit])

theorem glslFract_nonneg (t : ℚ) : 0 ≤ glslFract t :=
  sub_nonneg.mpr (Int.floor_le t)

theorem glslFract_lt_one (t : ℚ) : glslFract t < 1 :=
  sub_lt_iff_lt_add.mpr (by simpa [add_comm] using Int.lt_floor_add_one t)

theorem glslMod_two_nonneg (x : ℚ) : 0 ≤ glslMod x 2 := by
  have h := Int.floor_le (x / 2)
  unfold glslMod
  nlinarith

theorem glslMod_two_lt (x : ℚ) : glslMod x 2 < 2 := by
  have h := Int.lt_floor_add_one (x / 2)
  unfold glslMod
  nlinarith

/-- A value in `[0,1]` is a channel in range. -/
theorem channelInRange_of_unit {v : ℚ} (h0 : 0 ≤ v) (h1 : v ≤ 1) :
    channelInRange v :=
  ⟨by linarith, by linarith⟩

/-- `mix` of two channels in `[0,1]` with a factor in `[0, 51/50]` stays in
`[-1/50, 51/50]`. -/
theorem glslMix_channelInRange {a b x : ℚ}
    (ha0 : 0 ≤ a) (ha1 : a ≤ 1) (hb0 : 0 ≤ b) (hb1 : b ≤ 1)
    (hx0 : 0 ≤ x) (hx1 : x ≤ 51/50) : channelInRange (glslMix a b x) := by
  unfold glslMix channelInRange
  rcases le_total a b with h | h
  · have h1 : 0 ≤ (b - a) * x := mul_nonneg (by linarith) hx0
    have h2 : (b - a) * x ≤ (b - a) * (51/50) :=
      mul_le_mul_of_nonneg_left hx1 (by linarith)
    constructor <;> nlinarith
  · have h1 : (b - a) * x ≤ 0 :=
      mul_nonpos_of_nonpos_of_nonneg (by linarith) hx0
    have h2 : (b - a) * (51/50) ≤ (b - a) * x :=
      mul_le_mul_of_nonpos_left hx1 (by linarith)
    constructor <;> nlinarith

/-- `mix3` of two colors with unit channels and factor in `[0, 51/50]`. -/
theorem mix3_colorInRange {a b : ℚ × ℚ × ℚ} {x : ℚ}
    (ha : 0 ≤ a.1 ∧ a.1 ≤ 1 ∧ 0 ≤ a.2.1 ∧ a.2.1 ≤ 1 ∧ 0 ≤ a.2.2 ∧ a.2.2 ≤ 1)
    (hb : 0 ≤ b.1 ∧ b.1 ≤ 1 ∧ 0 ≤ b.2.1 ∧ b.2.1 ≤ 1 ∧ 0 ≤ b.2.2 ∧ b.2.2 ≤ 1)
    (hx0 : 0 ≤ x) (hx1 : x ≤ 51/50) : colorInRange (mix3 a b x) := by
  obtain ⟨ha1, ha2, ha3, ha4, ha5, ha6⟩ := ha
  obtain ⟨hb1, hb2, hb3, hb4, hb5, hb6⟩ := hb
  exact ⟨glslMix_channelInRange ha1 ha2 hb1 hb2 hx0 hx1,
    glslMix_channelInRange ha3 ha4 hb3 hb4 hx0 hx1,
    glslMix_channelInRange ha5 ha6 hb5 hb6 hx0 hx1⟩

/-- The three-band gradient keeps all channels in `[-1/50, 51/50]` for
`t ∈ [0, 1)` when all four stops have unit channels. -/
theorem gradientBands_colorInRange {c1 c2 c3 c4 : ℚ × ℚ × ℚ} {t : ℚ}
    (h1 : 0 ≤ c1.1 ∧ c1.1 ≤ 1 ∧ 0 ≤ c1.2.1 ∧ c1.2.1 ≤ 1 ∧ 0 ≤ c1.2.2 ∧ c1.2.2 ≤ 1)
    (h2 : 0 ≤ c2.1 ∧ c2.1 ≤ 1 ∧ 0 ≤ c2.2.1 ∧ c2.2.1 ≤ 1 ∧ 0 ≤ c2.2.2 ∧ c2.2.2 ≤ 1)
    (h3 : 0 ≤ c3.1 ∧ c3.1 ≤ 1 ∧ 0 ≤ c3.2.1 ∧ c3.2.1 ≤ 1 ∧ 0 ≤ c3.2.2 ∧ c3.2.2 ≤ 1)
    (h4 : 0 ≤ c4.1 ∧ c4.1 ≤ 1 ∧ 0 ≤ c4.2.1 ∧ c4.2.1 ≤ 1 ∧ 0 ≤ c4.2.2 ∧ c4.2.2 ≤ 1)
    (ht0 : 0 ≤ t) (ht1 : t < 1) :
    colorInRange (gradientBands c1 c2 c3 c4 t) := by
  unfold gradientBands
  split_ifs with hb1 hb2
  · exact mix3_colorInRange h1 h2 (by linarith) (by linarith)
  · exact mix3_colorInRange h2 h3 (by linarith) (by linarith)
  · exact mix3_colorInRange h3 h4 (by linarith) (by linarith)

/-- Every output of `getColor` has all channels in `[-1/50, 51/50]`. -/
theorem getColor_colorInRange (t0 : ℚ) (scheme : ℤ) :
    colorInRange (getColor t0 scheme) := by
  have ht0 : 0 ≤ glslFract t0 := glslFract_nonneg t0
  have ht1 : glslFract t0 < 1 := glslFract_lt_one t0
  unfold getColor
  split_ifs with hs0 hs1 hs2
  · exact gradientBands_colorInRange (by norm_num) (by norm_num) (by norm_num)
      (by norm_num) ht0 ht1
  · exact gradientBands_colorInRange (by norm_num) (by norm_num) (by norm_num)
      (by norm_num) ht0 ht1
  · exact gradientBands_colorInRange (by norm_num) (by norm_num) (by norm_num)
      (by norm_num) ht0 ht1
  · have hm0 : 0 ≤ glslMod (glslFract t0 * 6) 2 := glslMod_two_nonneg _
    have hm2 : glslMod (glslFract t0 * 6) 2 < 2 := glslMod_two_lt _
    have habs : |glslMod (glslFract t0 * 6) 2 - 1| ≤ 1 :=
      abs_le.mpr ⟨by linarith, by linarith⟩
    have habs0 : 0 ≤ |glslMod (glslFract t0 * 6) 2 - 1| := abs_nonneg _
    have hx0 : 0 ≤ 1 * (1 - |glslMod (glslFract t0 * 6) 2 - 1|) := by linarith
    have hx1 : 1 * (1 - |glslMod (glslFract t0 * 6) 2 - 1|) ≤ 1 := by linarith
    dsimp only
    split_ifs <;>
      exact ⟨channelInRange_of_unit (by simp; try linarith) (by simp; try linarith),
        channelInRange_of_unit (by simp; try linarith) (by simp; try linarith),
        channelInRange_of_unit (by simp; try linarith) (by simp; try linarith)⟩

/-- C5 counterexample: the escaped point with iteration count 999 at cap 1000
under the classic palette gets green channel `-17/1000 < 0`: the final
gradient band's interpolation factor `(t - 0.66) * 3` exceeds 1 for `t`
close to 1, so the claimed `[0,1]` channel range fails. -/
theorem mandelbrot_color_negative_channel :
    (mandelbrotPixelColor 999 1000 0).2.1 = -17/1000 ∧
      ¬ 0 ≤ (mandelbrotPixelColor 999 1000 0).2.1 := by
  have hfloor : ⌊(999/1000 : ℚ)⌋ = 0 := by
    rw [Int.floor_eq_zero_iff]
    constructor <;> norm_num
  have h : (mandelbrotPixelColor 999 1000 0).2.1 = -17/1000 := by
    rw [mandelbrotPixelColor, if_neg (by norm_num)]
    rw [show (999 : ℚ) / 1000 = 999/1000 by norm_num]
    rw [getColor]
    rw [if_pos rfl]
    rw [show glslFract (999/1000 : ℚ) = 999/1000 by
      rw [glslFract, hfloor]; norm_num]
    rw [gradientBands, if_neg (by norm_num), if_neg (by norm_num)]
    norm_num [mix3, glslMix]
  exact ⟨h, by rw [h]; norm_num⟩

/-- C5 amended: for every iteration count, cap and scheme, the shader's
iteration-to-color mapping outputs three channels each within
`[-1/50, 51/50]` (the last gradient band's `mix` factor `(t-0.66)*3` can
slightly exceed 1, so `[0,1]` does not hold), and every point whose
iteration count reaches or exceeds the cap is pure black regardless of the
scheme. -/
theorem mandelbrot_color_range (iterations maxIterations : ℚ) (scheme : ℤ) :
    colorInRange (mandelbrotPixelColor iterations maxIterations scheme) ∧
      (iterations ≥ maxIterations →
        mandelbrotPixelColor iterations maxIterations scheme = (0, 0, 0)) := by
  unfold mandelbrotPixelColor
  split_ifs with h
  · exact ⟨⟨by norm_num [channelInRange], by norm_num [channelInRange],
      by norm_num [channelInRange]⟩, fun _ => rfl⟩
  · exact ⟨getColor_colorInRange _ _, fun hc => absurd hc h⟩

/-- Witness for C5's amended theorem: an in-set point is black and in
range. -/
theorem mandelbrot_color_range_witness :
    colorInRange (mandelbrotPixelColor 5 3 1) ∧
      mandelbrotPixelColor 5 3 1 = (0, 0, 0) :=
  ⟨(mandelbrot_color_range 5 3 1).1, (mandelbrot_color_range 5 3 1).2 (by norm_num)⟩

/-- C7 counterexample: after a parameter update to zoom 50 the `highPrecision`
flag is on (50 > 20), yet the shader's per-pixel branch condition
`u_highPrecision && u_zoom > 100.0` is false, so the iteration still runs in
standard floating point. -/
theorem highPrecision_gap_at_zoom_50 :
    (updateParametersForInfiniteZoom defaultParameters
        { zoom := some 50 }).highPrecision = true ∧
      shaderUsesHighPrecision
        (updateParametersForInfiniteZoom defaultParameters
          { zoom := some 50 }).highPrecision 50 = false := by
  constructor <;> rfl

/-- C7 amended: after an update that supplies a truthy zoom, the
`highPrecision` flag is set exactly when `zoom > 20`, the previous flag was
forced, or `zoom > 10^6`; the per-pixel compensated mode actually runs
exactly when `zoom > 100` (at which point the flag is set automatically), so
the effective switch-over of the iteration arithmetic is at `zoom > 100`,
not at the documented ~20. -/
theorem highPrecision_thresholds (p : FractalParams) (z : ℚ) (hz : z ≠ 0) :
    ((updateParametersForInfiniteZoom p { zoom := some z }).highPrecision = true ↔
      (20 < z ∨ p.highPrecision = true)) ∧
    (shaderUsesHighPrecision
        (updateParametersForInfiniteZoom p { zoom := some z }).highPrecision
        z = true ↔ 100 < z) := by
  have hflag : (updateParametersForInfiniteZoom p { zoom := some z }).highPrecision =
      (decide (z > 20) || p.highPrecision || decide (z > 1000000)) := by
    simp [updateParametersForInfiniteZoom, assignParams, shouldUseHighPrecision,
      needsCompleteRecalculation, hz]
  constructor
  · rw [hflag]
    simp only [Bool.or_eq_true, decide_eq_true_eq]
    constructor
    · rintro ((h | h) | h)
      · exact Or.inl h
      · exact Or.inr h
      · exact Or.inl (by linarith)
    · rintro (h | h)
      · exact Or.inl (Or.inl h)
      · exact Or.inl (Or.inr h)
  · rw [shaderUsesHighPrecision, hflag]
    simp only [Bool.and_eq_true, Bool.or_eq_true, decide_eq_true_eq]
    constructor
    · rintro ⟨-, h⟩; exact h
    · intro h; exact ⟨Or.inl (Or.inl (by linarith)), h⟩

/-- Witness for C7's amended theorem at zoom 200: the flag is set and the
compensated branch actually runs. -/
theorem highPrecision_thresholds_witness :
    (updateParametersForInfiniteZoom defaultParameters
        { zoom := some 200 }).highPrecision = true ∧
      shaderUsesHighPrecision
        (updateParametersForInfiniteZoom defaultParameters
          { zoom := some 200 }).highPrecision 200 = true :=
  ⟨(highPrecision_thresholds defaultParameters 200 (by norm_num)).1.mpr
      (Or.inl (by norm_num)),
    (highPrecision_thresholds defaultParameters 200 (by norm_num)).2.mpr
      (by norm_num)⟩

/-- C9: a parameter update that does not supply `maxIterations` leaves
`maxIterations` unchanged, whatever other fields (including zoom) it
supplies: `updateParametersForInfiniteZoom` restores the saved count and no
later step of the update path touches it. -/
theorem updateParameters_preserves_maxIterations
    (p : FractalParams) (np : NewParams) (h : np.maxIterations = none) :
    (updateParametersForInfiniteZoom p np).maxIterations = p.maxIterations := by
  cases hz : np.zoom <;>
    simp [updateParametersForInfiniteZoom, assignParams, h, hz] <;>
    split_ifs <;> rfl

/-- Witness for C9: an update supplying only a new zoom keeps the default
iteration count 256. -/
theorem updateParameters_preserves_maxIterations_witness :
    (updateParametersForInfiniteZoom defaultParameters
        { zoom := some 100 }).maxIterations = defaultParameters.maxIterations :=
  updateParameters_preserves_maxIterations defaultParameters { zoom := some 100 } rfl

theorem generateKochSide_length (sqrt3 : ℚ) :
    ∀ (depth : ℕ) (s e : ℚ × ℚ),
      (generateKochSide sqrt3 depth s e).length = 4 ^ depth := by
  intro depth
  induction depth with
  | zero => intro s e; rfl
  | succ n ih =>
    intro s e
    simp only [generateKochSide, List.length_append, ih]
    ring

theorem generateSierpinskiRecursive_length :
    ∀ (depth : ℕ) (p1 p2 p3 : ℚ × ℚ) (currentDepth : ℕ),
      (generateSierpinskiRecursive p1 p2 p3 depth currentDepth).length =
        3 ^ depth := by
  intro depth
  induction depth with
  | zero => intro p1 p2 p3 c; rfl
  | succ n ih =>
    intro p1 p2 p3 c
    simp only [generateSierpinskiRecursive, List.length_append, ih]
    ring

theorem generateBranch_length (sinDeg cosDeg : ℚ → ℚ)
    (lengthRatio branchAngle : ℚ) (recursionDepth : ℕ) :
    ∀ (depth : ℕ) (s e : ℚ × ℚ) (angle : ℚ) (currentDepth : ℕ) (length : ℚ),
      (generateBranch sinDeg cosDeg lengthRatio branchAngle recursionDepth
          s e angle depth currentDepth length).length = 2 ^ (depth + 1) - 1 := by
  intro depth
  induction depth with
  | zero => intro s e a c l; rfl
  | succ n ih =>
    intro s e a c l
    simp only [generateBranch, List.length_cons, List.length_append, ih]
    have h : 1 ≤ 2 ^ (n + 1) := Nat.one_le_two_pow
    rw [pow_succ]
    omega

/-- C10: within the enforced depth bounds (Koch 1–8, Sierpinski 1–10, tree
3–12, the clamps in the respective `updateIterations` overrides), the Koch
snowflake generator emits exactly `3·4^d` segments, the Sierpinski generator
exactly `3^d` triangles, and the fractal-tree generator exactly `2^(d+1) − 1`
branch segments, independently of the geometric parameters. -/
theorem generator_output_counts (sqrt3 : ℚ) (sinDeg cosDeg : ℚ → ℚ)
    (lengthRatio branchAngle : ℚ) (dKoch dSier dTree : ℕ)
    (hK : 1 ≤ dKoch ∧ dKoch ≤ 8) (hS : 1 ≤ dSier ∧ dSier ≤ 10)
    (hT : 3 ≤ dTree ∧ dTree ≤ 12) :
    (generateKochCurve sqrt3 dKoch).length = 3 * 4 ^ dKoch ∧
    (generateSierpinskiTriangle sqrt3 dSier).length = 3 ^ dSier ∧
    (generateFractalTree sinDeg cosDeg lengthRatio branchAngle dTree).length =
      2 ^ (dTree + 1) - 1 := by
  refine ⟨?_, ?_, ?_⟩
  · simp only [generateKochCurve, List.length_append,
      generateKochSide_length]
    ring
  · simp only [generateSierpinskiTriangle,
      generateSierpinskiRecursive_length]
  · simp only [generateFractalTree, generateBranch_length]

/-- Witness for C10 at the source's default depths (Koch 4, Sierpinski 6,
tree 10). -/
theorem generator_output_counts_witness :
    (generateKochCurve 0 4).length = 3 * 4 ^ 4 ∧
    (generateSierpinskiTriangle 0 6).length = 3 ^ 6 ∧
    (generateFractalTree (fun _ => 0) (fun _ => 0) (7/10) 30 10).length =
      2 ^ (10 + 1) - 1 :=
  generator_output_counts 0 (fun _ => 0) (fun _ => 0) (7/10) 30 4 6 10
    (by norm_num) (by norm_num) (by norm_num)

/-- C4 counterexample: for the escaping input `i = 0`, `|z|² = 256` with
escape radius 4 (accepted by parameter validation), the Julia shader's
smooth value is `-1` while the claimed formula gives `0`: julia.js computes
`i + 1 - log2(log2(|z|²)/2)`, which ignores `u_escapeRadius`. -/
theorem julia_smooth_ignores_escape_radius :
    juliaSmoothIterations 0 256 = -1 ∧ specSmoothEscapeTime 0 256 4 = 0 ∧
      juliaSmoothIterations 0 256 ≠ specSmoothEscapeTime 0 256 4 := by
  have hlog2 : Real.log 2 ≠ 0 := ne_of_gt (Real.log_pos (by norm_num))
  have h256 : Real.log 256 = 8 * Real.log 2 := by
    rw [show (256 : ℝ) = 2 ^ (8 : ℕ) by norm_num, Real.log_pow]
    norm_num
  have h4 : Real.log 4 = 2 * Real.log 2 := by
    rw [show (4 : ℝ) = 2 ^ (2 : ℕ) by norm_num, Real.log_pow]
    norm_num
  have hj : juliaSmoothIterations 0 256 = -1 := by
    rw [juliaSmoothIterations, Real.logb, Real.logb, h256]
    rw [show (8 : ℝ) * Real.log 2 / Real.log 2 / 2 = 4 by
      field_simp; norm_num]
    rw [h4, mul_div_assoc, div_self hlog2]
    norm_num
  have hs : specSmoothEscapeTime 0 256 4 = 0 := by
    rw [specSmoothEscapeTime, h256, h4]
    rw [show (8 : ℝ) * Real.log 2 / 2 / (2 * Real.log 2) = 2 by
      field_simp; ring]
    rw [div_self hlog2]
    norm_num
  exact ⟨hj, hs, by rw [hj, hs]; norm_num⟩

/-- C4 amended: the Mandelbrot shader computes the fractional escape time
exactly as the claimed formula `i + 1 − log(log(|z|²)/2 / log(escapeRadius))
/ log(2)` for every escape radius, while the Julia shader computes
`i + 1 − log2(log2(|z|²)/2)`, which coincides with the claimed formula
exactly when the escape radius is 2 and ignores it otherwise. -/
theorem smooth_coloring_formula_per_fractal (i : ℕ)
    (magnitudeSq escapeRadius : ℝ) :
    mandelbrotSmoothIterations i magnitudeSq escapeRadius =
        specSmoothEscapeTime i magnitudeSq escapeRadius ∧
      juliaSmoothIterations i magnitudeSq = specSmoothEscapeTime i magnitudeSq 2 := by
  constructor
  · simp only [mandelbrotSmoothIterations, specSmoothEscapeTime]
    rw [show Real.log magnitudeSq * 0.5 = Real.log magnitudeSq / 2 by ring]
  · simp only [juliaSmoothIterations, specSmoothEscapeTime, Real.logb]
    rw [show Real.log magnitudeSq / Real.log 2 / 2 =
      Real.log magnitudeSq / 2 / Real.log 2 by ring]

/-- C6 (code bug): `iterationToColor(0, 256)` passes the in-set guard
(`0 >= 256` is false), yet the unguarded smooth formula computes
`log2(log2(0 + 1)) = log2(0) = -Infinity`, so `smoothed = +Infinity` and the
hue `(smoothed / maxIterations * 360) % 360` evaluates to `NaN`, which is
handed to `hsvToRgb`: no safe fallback exists in the code. -/
theorem iterationToColor_hue_nan_at_zero :
    ¬ ((0 : ℝ) ≥ 256) ∧
      iterationToColorHue (JsNum.fin 0) (JsNum.fin 256) = JsNum.nan := by
  refine ⟨by norm_num, ?_⟩
  have h1 : jsAdd (JsNum.fin 0) (JsNum.fin 1) = JsNum.fin 1 := by
    show JsNum.fin (0 + 1) = JsNum.fin 1
    norm_num
  have h2 : jsLog2 (JsNum.fin 1) = JsNum.fin 0 := by
    show (if (0 : ℝ) < 1 then JsNum.fin (Real.logb 2 1)
      else if (1 : ℝ) = 0 then JsNum.negInf else JsNum.nan) = JsNum.fin 0
    rw [if_pos (by norm_num), Real.logb_one]
  have h3 : jsLog2 (JsNum.fin 0) = JsNum.negInf := by
    show (if (0 : ℝ) < 0 then JsNum.fin (Real.logb 2 0)
      else if (0 : ℝ) = 0 then JsNum.negInf else JsNum.nan) = JsNum.negInf
    rw [if_neg (by norm_num), if_pos rfl]
  have h4 : jsSub (JsNum.fin 1) JsNum.negInf = JsNum.posInf := rfl
  have h5 : jsDiv JsNum.posInf (JsNum.fin 256) = JsNum.posInf := by
    show (if (0 : ℝ) ≤ 256 then JsNum.posInf else JsNum.negInf) = JsNum.posInf
    rw [if_pos (by norm_num)]
  have h6 : jsMul JsNum.posInf (JsNum.fin 360) = JsNum.posInf := by
    show (if (0 : ℝ) < 360 then JsNum.posInf
      else if (360 : ℝ) < 0 then JsNum.negInf else JsNum.nan) = JsNum.posInf
    rw [if_pos (by norm_num)]
  have h7 : jsMod JsNum.posInf (JsNum.fin 360) = JsNum.nan := rfl
  rw [iterationToColorHue, iterationToColorSmoothed, h1, h2, h3, h4, h5, h6, h7]
